import Mathlib

/-!
Verification development for the macvlan-noipam docker network plugin driver
(repository `docker-macvlan-noipam`).

The driver is shallowly embedded: its state (in-memory network table,
persistent store contents, host interface table) is explicit, each plugin
operation is a pure Lean function from a state (plus the request and an
oracle describing the outcomes of external calls such as store writes) to a
result and a successor state.

Embedding conventions:
* Go maps are modelled as association lists with unique keys; `delete`
  removes every entry with the key, `m[k] = v` puts the new entry in front
  and drops old entries with the same key.  Iteration order of a Go map is
  unspecified, we iterate in list order.
* Go errors are modelled by `GoError`; a `nil` error is `Option.none`
  (or `Except.ok`).  Error message strings follow the source format strings
  with the formatted values concatenated in; the `%v` of a nested opaque
  error is omitted.
* External fallible calls (persistent store writes/deletes, netlink link
  deletion) are driven by boolean oracle inputs: `true` means the call
  succeeded.
* `net.HardwareAddr` values (Go byte slices) are modelled as
  `Option (List Nat)`; `none` is the nil slice, `some bs` a non-nil slice
  with bytes `bs`.  Converting a Go string to a byte slice always yields a
  non-nil slice (Go spec, "Conversions to and from a string type"), hence
  `strBytes` below always returns the byte list and the slice it models is
  never nil.
-/

deriving instance DecidableEq for Except

namespace MacvlanNoipam

/-! ## Constants from the driver source -/

def networkType : String := "macvlan_noipam"

def modeOpt : String := "_mode"

/-- The mode option key is the literal string "macvlan" with the mode
suffix, i.e. "macvlan_mode" (independent of the driver type name). -/
def driverModeOpt : String := "macvlan" ++ modeOpt

def parentOpt : String := "parent"

def modePrivate : String := "private"

def modeVepa : String := "vepa"

def modeBridge : String := "bridge"

def modePassthru : String := "passthru"

def containerVethPfx : String := "eth"

def vethPfx : String := "veth"

/-! ## Data model -/

/-- The driver-side network configuration (`type configuration` in the
source; fields irrelevant to the verified claims, such as MTU, are
omitted). -/
structure Configuration where
  ID : String
  Parent : String
  MacvlanMode : String
  Internal : Bool
  CreatedSlaveLink : Bool
deriving DecidableEq, Repr

def emptyConfig : Configuration :=
  { ID := "", Parent := "", MacvlanMode := "", Internal := false,
    CreatedSlaveLink := false }

/-- An endpoint record (`type endpoint` in the source).  `mac` models the
`net.HardwareAddr` byte slice (`none` = nil slice). -/
structure Endpoint where
  id : String
  nid : String
  mac : Option (List Nat)
  srcName : String
deriving DecidableEq, Repr

/-- A runtime network object (`type network` in the source): its id, its
endpoint table and its owning configuration. -/
structure Network where
  id : String
  endpoints : List Endpoint
  config : Configuration
deriving DecidableEq, Repr

/-- Contents of the persistent key/value store: network configuration
records and endpoint records, each keyed by its id. -/
structure Store where
  nets : List Configuration
  eps : List Endpoint
deriving DecidableEq, Repr

/-- The host's global interface namespace: the names of the links that
currently exist on the host. -/
abbrev Host := List String

/-- The full state an operation can read and mutate: the driver's
in-memory network table, the persistent store and the host link table. -/
structure DriverState where
  networks : List Network
  store : Store
  host : Host
deriving DecidableEq, Repr

/-! ## Go error values -/

/-- Driver-visible error values.  `plain` is a `fmt.Errorf` error,
`maskable` a `types.InternalMaskableErrorf` error (the distinguished
"already exists" signal), `badRequest` a `types.BadRequestErrorf` error. -/
inductive GoError where
  | plain (msg : String)
  | maskable (msg : String)
  | badRequest (msg : String)
deriving DecidableEq, Repr

/-! ## Dynamically typed option values

The docker option bag maps string keys to `interface\x7b\x7d` values.  Only
primitive dynamic values occur in the cases relevant here. -/

/-- A primitive dynamic (`interface\x7b\x7d`) value. -/
inductive GoPrim where
  | str (s : String)
  | int (n : Int)
  | bool (b : Bool)
  | null
deriving DecidableEq, Repr

/-- The dynamic value found under the generic-data key of the option bag,
by its Go dynamic type: a `*configuration`, a `map[string]string`, an
`options.Generic`, a plain `map[string]interface\x7b\x7d`, the nil
interface, or a value of any other type. -/
inductive GenData where
  | config (c : Configuration)
  | strMap (m : List (String × String))
  | generic (m : List (String × GoPrim))
  | ifaceMap (m : List (String × GoPrim))
  | nullData
  | other (typeName : String)
deriving DecidableEq, Repr

/-- The docker network option bag, restricted to the two keys the driver
reads: `netlabel.GenericData` and `netlabel.Internal`. -/
structure NetworkOptions where
  genericData : Option GenData
  internal : Option GoPrim
deriving DecidableEq, Repr

def noOptions : NetworkOptions := { genericData := none, internal := none }

/-- Outcome of an option-parsing step: a configuration, a returned error,
or a Go runtime panic (from a failed unchecked type assertion). -/
inductive ParseOutcome where
  | ok (c : Configuration)
  | err (e : GoError)
  | panic (msg : String)
deriving DecidableEq, Repr

/-! ## Configuration parsing (`parseNetworkOptions` and helpers) -/

/-- The panic message raised by a failed unchecked type assertion
`value.(string)` (the concrete dynamic type named by the Go runtime is
abstracted away). -/
def typeAssertionPanic : String :=
  "interface conversion: interface \x7b\x7d is not string"

/-- Processing of the `map[string]interface\x7b\x7d` case of
`parseNetworkGenericOptions`: each entry is switched on its key; the
`parent` and mode keys read their value with an unchecked `value.(string)`
type assertion, which panics when the value is not a string; unknown keys
are logged and ignored. -/
def parseGenericEntries : List (String × GoPrim) → Configuration → ParseOutcome
  | [], cfg => .ok cfg
  | (label, v) :: rest, cfg =>
    if label = parentOpt then
      match v with
      | .str s => parseGenericEntries rest { cfg with Parent := s }
      | _ => .panic typeAssertionPanic
    else if label = driverModeOpt then
      match v with
      | .str s => parseGenericEntries rest { cfg with MacvlanMode := s }
      | _ => .panic typeAssertionPanic
    else
      parseGenericEntries rest cfg

/-- The `(config *configuration).fromOptions` method: binds the `parent`
and mode labels of a `map[string]string` to the configuration; other
labels are ignored; never fails. -/
def fromOptions : List (String × String) → Configuration → Configuration
  | [], cfg => cfg
  | (label, v) :: rest, cfg =>
    if label = parentOpt then fromOptions rest { cfg with Parent := v }
    else if label = driverModeOpt then fromOptions rest { cfg with MacvlanMode := v }
    else fromOptions rest cfg

/-- Modelled at the external-collaborator boundary: the libnetwork
`options.GenerateFromModel` reflection helper used for the
`options.Generic` case.  It populates configuration fields by exported Go
field name, failing (with an ordinary error, never a panic) on an unknown
field or an incompatible value type. -/
def generateFromModel : List (String × GoPrim) → Configuration → ParseOutcome
  | [], cfg => .ok cfg
  | (name, v) :: rest, cfg =>
    if name = "ID" then
      match v with
      | .str s => generateFromModel rest { cfg with ID := s }
      | _ => .err (.plain ("incompatible field value for " ++ name))
    else if name = "Parent" then
      match v with
      | .str s => generateFromModel rest { cfg with Parent := s }
      | _ => .err (.plain ("incompatible field value for " ++ name))
    else if name = "MacvlanMode" then
      match v with
      | .str s => generateFromModel rest { cfg with MacvlanMode := s }
      | _ => .err (.plain ("incompatible field value for " ++ name))
    else if name = "Internal" then
      match v with
      | .bool b => generateFromModel rest { cfg with Internal := b }
      | _ => .err (.plain ("incompatible field value for " ++ name))
    else if name = "CreatedSlaveLink" then
      match v with
      | .bool b => generateFromModel rest { cfg with CreatedSlaveLink := b }
      | _ => .err (.plain ("incompatible field value for " ++ name))
    else
      .err (.plain ("no field matching label " ++ name))

/-- The `parseNetworkGenericOptions` type switch on the dynamic type of
the generic-data value. -/
def parseNetworkGenericOptions : GenData → ParseOutcome
  | .config c => .ok c
  | .strMap m => .ok (fromOptions m emptyConfig)
  | .generic m => generateFromModel m emptyConfig
  | .ifaceMap m => parseGenericEntries m emptyConfig
  | .nullData => .err (.badRequest "unrecognized network configuration format")
  | .other t => .err (.badRequest ("unrecognized network configuration format " ++ t))

/-- The `parseNetworkOptions` function: parse the generic-data value if
present and non-nil, then fold in the internal flag (set only when the
internal option value is the boolean `true`). -/
def parseNetworkOptions (opts : NetworkOptions) : ParseOutcome :=
  let base : ParseOutcome :=
    match opts.genericData with
    | some gd => if gd = .nullData then .ok emptyConfig else parseNetworkGenericOptions gd
    | none => .ok emptyConfig
  match base with
  | .ok c =>
    match opts.internal with
    | some (.bool true) => .ok { c with Internal := true }
    | _ => .ok c
  | o => o

/-! ## Table and host primitives -/

/-- Does a link with this name exist on the host?  (Models the repo helper
`parentExists`, which asks netlink for the link by name.) -/
def hostHas : Host → String → Bool
  | [], _ => false
  | x :: rest, name => if x = name then true else hostHas rest name

/-- Remove a link name from the host table (effect of a successful netlink
`LinkDel`). -/
def hostRemove : Host → String → Host
  | [], _ => []
  | x :: rest, name => if x = name then rest else x :: hostRemove rest name

/-- Look a network up in the in-memory network table by id (models the map
read in the repo helpers `network` / `getNetworks`). -/
def lookupNetwork : List Network → String → Option Network
  | [], _ => none
  | n :: rest, nid => if n.id = nid then some n else lookupNetwork rest nid

/-- Modelled from the spec: the Network Registry `delete(id)` operation
("removes from the in-memory map", §4.3) — the repo helper
`(d *driver).deleteNetwork`, whose body is not part of the given sources.
It only deletes the map entry. -/
def removeNetwork : List Network → String → List Network
  | [], _ => []
  | n :: rest, nid =>
    if n.id = nid then removeNetwork rest nid else n :: removeNetwork rest nid

/-- Modelled from the spec: the Network Registry insertion performed by the
repo helper `(d *driver).addNetwork` — a Go map write `networks[n.id] = n`,
i.e. the new network replaces any entry with the same id. -/
def addNetwork (l : List Network) (n : Network) : List Network :=
  n :: removeNetwork l n.id

/-- Look an endpoint up in a network's endpoint table by id (the repo
helper `(n *network).endpoint`). -/
def lookupEndpoint : List Endpoint → String → Option Endpoint
  | [], _ => none
  | e :: rest, eid => if e.id = eid then some e else lookupEndpoint rest eid

/-- Map deletion on the endpoint table (the repo helper
`(n *network).deleteEndpoint`). -/
def removeEndpoint : List Endpoint → String → List Endpoint
  | [], _ => []
  | e :: rest, eid =>
    if e.id = eid then removeEndpoint rest eid else e :: removeEndpoint rest eid

/-- Map insertion on the endpoint table (the repo helper
`(n *network).addEndpoint`). -/
def addEndpoint (l : List Endpoint) (e : Endpoint) : List Endpoint :=
  e :: removeEndpoint l e.id

/-- Replace the network with the given id by an updated copy (the effect
of mutating a `*network` held in the table). -/
def updateNetwork : List Network → String → (Network → Network) → List Network
  | [], _, _ => []
  | n :: rest, nid, f =>
    if n.id = nid then f n :: rest else n :: updateNetwork rest nid f

/-! ## Persistent store records -/

def removeNetRecord : List Configuration → String → List Configuration
  | [], _ => []
  | c :: rest, cid =>
    if c.ID = cid then removeNetRecord rest cid else c :: removeNetRecord rest cid

def removeEpRecord : List Endpoint → String → List Endpoint
  | [], _ => []
  | e :: rest, eid =>
    if e.id = eid then removeEpRecord rest eid else e :: removeEpRecord rest eid

/-- A successful network-record store write (`storeUpdate` on a
`*configuration`): the record is keyed by the network id. -/
def putNetRecord (s : Store) (c : Configuration) : Store :=
  { s with nets := c :: removeNetRecord s.nets c.ID }

/-- A successful network-record store delete (`storeDelete` on a
`*configuration`). -/
def delNetRecord (s : Store) (cid : String) : Store :=
  { s with nets := removeNetRecord s.nets cid }

/-- A successful endpoint-record store write (`storeUpdate` on an
`*endpoint`). -/
def putEpRecord (s : Store) (e : Endpoint) : Store :=
  { s with eps := e :: removeEpRecord s.eps e.id }

/-- A successful endpoint-record store delete (`storeDelete` on an
`*endpoint`). -/
def delEpRecord (s : Store) (eid : String) : Store :=
  { s with eps := removeEpRecord s.eps eid }

/-! ## Link names and link provisioning -/

/-- The `stringid.TruncateID` helper of the docker library: shortens an id
to its 12-character prefix. -/
def truncateID (s : String) : String := s.take 12

/-- Modelled from the spec: the repo helper `getDummyName`, which
"synthesizes a deterministic dummy-link name derived from a fixed-length
prefix of the network id" (§4.1); the name is the truncated id behind a
fixed dummy-link tag. -/
def getDummyName (netID : String) : String := "dm-" ++ netID

/-- Modelled from the spec: validity of a VLAN sub-interface name of the
form `base.vlanID` with a numeric VLAN id (§4.2, glossary).  The name must
split into exactly a non-empty base and a decimal VLAN id between 1 and
4094. -/
def isVlanName (name : String) : Bool :=
  match name.splitOn "." with
  | [base, vid] =>
    base ≠ "" &&
      (match vid.toNat? with
       | some v => 1 ≤ v && v ≤ 4094
       | none => false)
  | _ => false

def vlanBase (name : String) : String :=
  match name.splitOn "." with
  | [base, _] => base
  | _ => ""

/-- Modelled from the spec: the repo helper `createVlanLink` — "attempt to
create a VLAN sub-interface by parsing base.vlanID; fail with
`ConfigurationError` if the name does not parse as
`<existing-base-iface>.<numeric-vlan-id>`" (§4.2). -/
def createVlanLink (host : Host) (name : String) : Except GoError Host :=
  if isVlanName name then
    if hostHas host (vlanBase name) then .ok (name :: host)
    else .error (.plain ("the base interface of " ++ name ++ " was not found"))
  else
    .error (.plain ("invalid subinterface vlan name " ++ name ++
      ", example formatting is eth0.10"))

/-- Modelled from the spec: the repo helper `createDummyLink` — "create a
dummy link with that name" (§4.2); the new link appears on the host. -/
def createDummyLink (host : Host) (name : String) : Host := name :: host

/-- Deletion of a dummy parent link (the repo helper `delDummyLink`),
best-effort: the oracle `ok` tells whether the netlink delete succeeded;
on failure the link stays and the caller only logs. -/
def delDummyLinkStep (host : Host) (name : String) (ok : Bool) : Host :=
  if ok then hostRemove host name else host

/-- Modelled from the spec: the repo helper `delVlanLink` — "only delete
the link if it matches iface.vlan naming" (source comment, §4.2): a name
that does not match the VLAN sub-interface pattern is not deleted (an
error is logged); the `ok` oracle tells whether the netlink delete itself
succeeded. -/
def delVlanLinkStep (host : Host) (name : String) (ok : Bool) : Host :=
  if isVlanName name && ok then hostRemove host name else host

/-! ## Network creation (`createNetwork` / `CreateNetwork`) -/

/-- The conflict error produced when a different network already uses the
requested parent interface (`createNetwork`, source lines 372-373). -/
def parentConflictError (nw : Network) (parent : String) : GoError :=
  .plain ("network " ++ getDummyName (truncateID nw.config.ID) ++
    " is already using parent interface " ++ parent)

/-- The loop at the top of `createNetwork` (source lines 369-379): scan
the network table for one whose parent equals the requested parent; a
match with a different id is a conflict error, a match with the same id
sets `foundExisting` and stops the scan. -/
def findParentMatch : List Network → Configuration → Except GoError Bool
  | [], _ => .ok false
  | nw :: rest, cfg =>
    if cfg.Parent = nw.config.Parent then
      if cfg.ID ≠ nw.config.ID then .error (parentConflictError nw cfg.Parent)
      else .ok true
    else findParentMatch rest cfg

/-- The link-provisioning block of `createNetwork` (source lines 380-401):
if the parent link is absent from the host, create it — as a dummy link
when the parent equals the synthesized dummy name, else as a VLAN
sub-interface — and record `CreatedSlaveLink := true`; if it is present,
leave it and the flag untouched. -/
def provisionLink (host : Host) (cfg : Configuration) :
    Except GoError (Configuration × Host) :=
  if hostHas host cfg.Parent then .ok (cfg, host)
  else if getDummyName (truncateID cfg.ID) = cfg.Parent then
    .ok ({ cfg with CreatedSlaveLink := true }, createDummyLink host cfg.Parent)
  else
    match createVlanLink host cfg.Parent with
    | .error e => .error e
    | .ok host' => .ok ({ cfg with CreatedSlaveLink := true }, host')

/-- The `(d *driver).createNetwork` method (source lines 366-414): parent
conflict scan, link provisioning, and — unless this is an idempotent
replay — insertion of the new network into the table.  The returned `Bool`
is `foundExisting`; the returned configuration carries the possibly
updated `CreatedSlaveLink` flag.  On an error return the state is
unchanged. -/
def createNetwork (st : DriverState) (cfg : Configuration) :
    Except GoError (Bool × Configuration) × DriverState :=
  match findParentMatch st.networks cfg with
  | .error e => (.error e, st)
  | .ok foundExisting =>
    match provisionLink st.host cfg with
    | .error e => (.error e, st)
    | .ok (cfg', host') =>
      if foundExisting then
        (.ok (true, cfg'), { st with host := host' })
      else
        (.ok (false, cfg'),
         { st with host := host',
                   networks := addNetwork st.networks
                     { id := cfg'.ID, endpoints := [], config := cfg' } })

/-- A network-create request as the driver sees it: the runtime-assigned
network id, the `Pool` strings of the IPv4 pool-descriptor list
(`req.IPv4Data`), and the option bag. -/
structure CreateNetworkRequest where
  NetworkID : String
  IPv4Pools : List String
  Options : NetworkOptions
deriving DecidableEq, Repr

/-- Outcome of a `CreateNetwork` call: success, a returned error, or a Go
runtime panic escaping from option parsing. -/
inductive CreateOutcome where
  | ok
  | err (e : GoError)
  | panic (msg : String)
deriving DecidableEq, Repr

/-- The IPv4 pool guard of `CreateNetwork` (source line 101): reject when
the pool list is non-empty and its first descriptor is not the wildcard
pool "0.0.0.0/0". -/
def poolRejected (pools : List String) : Bool :=
  match pools with
  | [] => false
  | p :: _ => if p = "0.0.0.0/0" then false else true

/-- The macvlan mode switch of `CreateNetwork` (source lines 112-124):
empty or "bridge" normalizes to "bridge"; "private", "passthru" and
"vepa" pass through; anything else is rejected. -/
def normalizeMode (m : String) : Option String :=
  if m = "" ∨ m = modeBridge then some modeBridge
  else if m = modePrivate then some modePrivate
  else if m = modePassthru then some modePassthru
  else if m = modeVepa then some modeVepa
  else none

/-- The request validation prefix of `CreateNetwork` (source lines
96-132): pool guard, option parsing, id binding, mode normalization,
loopback-parent rejection and dummy-parent synthesis.  It yields the fully
validated configuration handed to `createNetwork`, independent of any
state. -/
def validateCreate (req : CreateNetworkRequest) : ParseOutcome :=
  if poolRejected req.IPv4Pools then .err (.plain "ipv4 pool is not empty")
  else
    match parseNetworkOptions req.Options with
    | .panic m => .panic m
    | .err e => .err e
    | .ok cfg0 =>
      match normalizeMode cfg0.MacvlanMode with
      | none =>
        .err (.plain ("requested macvlan mode " ++ cfg0.MacvlanMode ++
          " is not valid, bridge mode is the macvlan driver default"))
      | some m =>
        if cfg0.Parent = "lo" then
          .err (.plain ("loopback interface is not a valid " ++ networkType ++
            " parent link"))
        else if cfg0.Parent = "" then
          .ok { cfg0 with
                ID := req.NetworkID
                MacvlanMode := m
                Parent := getDummyName (truncateID req.NetworkID) }
        else .ok { cfg0 with ID := req.NetworkID, MacvlanMode := m }

/-- The maskable "already exists" signal returned for an idempotent replay
(source line 139). -/
def restoringExistingError (nid : String) : GoError :=
  .maskable ("restoring existing network " ++ nid)

/-- The error surfaced when the network-record store write fails (the
nested store error is opaque to the model). -/
def storeUpdateFailedError : GoError := .plain "failed to update store"

/-- The `(d *driver).CreateNetwork` handler (source lines 96-151):
validation, `createNetwork`, the maskable already-exists return for an
idempotent replay, and the store write with rollback — on a failed store
write the network is deleted from the in-memory table again (the Network
Registry `delete(id)`, cf. `removeNetwork`) and the error is returned.
`storeOk` is the oracle for the store write. -/
def CreateNetwork (st : DriverState) (req : CreateNetworkRequest)
    (storeOk : Bool) : CreateOutcome × DriverState :=
  match validateCreate req with
  | .panic m => (.panic m, st)
  | .err e => (.err e, st)
  | .ok cfg =>
    match createNetwork st cfg with
    | (.error e, st') => (.err e, st')
    | (.ok (foundExisting, cfg'), st') =>
      if foundExisting then
        (.err (restoringExistingError cfg.ID), st')
      else if storeOk then
        (.ok, { st' with store := putNetRecord st'.store cfg' })
      else
        (.err storeUpdateFailedError,
         { st' with networks := removeNetwork st'.networks cfg.ID })

/-! ## Network deletion (`DeleteNetwork`) -/

/-- Oracle for the external calls made by a `DeleteNetwork` call. -/
structure DelNetOracle where
  parentDelOk : Bool
  epLinkDelOk : String → Bool
  epStoreDelOk : String → Bool
  netStoreDelOk : Bool

/-- One endpoint of the `DeleteNetwork` sweep, host side: delete the
endpoint's interface if it exists (failure is only warned about). -/
def epSweepStepHost (o : DelNetOracle) (ep : Endpoint) (host : Host) : Host :=
  if hostHas host ep.srcName then
    if o.epLinkDelOk ep.srcName then hostRemove host ep.srcName else host
  else host

/-- One endpoint of the `DeleteNetwork` sweep, store side: delete the
endpoint's store record (failure is only warned about). -/
def epSweepStepStore (o : DelNetOracle) (ep : Endpoint) (store : Store) : Store :=
  if o.epStoreDelOk ep.id then delEpRecord store ep.id else store

/-- The per-endpoint sweep of `DeleteNetwork` (source lines 181-191): for
every endpoint of the dying network, delete its interface if it exists and
delete its store record, both best-effort. -/
def epSweep (o : DelNetOracle) : List Endpoint → Host → Store → Host × Store
  | [], host, store => (host, store)
  | ep :: rest, host, store =>
    epSweep o rest (epSweepStepHost o ep host) (epSweepStepStore o ep store)

/-- The error returned when deleting the network record from the datastore
fails (source line 197; the doubled word is in the source format
string). -/
def netStoreDelError (nid : String) : GoError :=
  .plain ("error deleting deleting id " ++ nid ++ " from datastore")

/-- The parent-link removal block of `DeleteNetwork` (source lines
160-180): only when the driver created the slave link, and only when the
link still exists; a parent named like the dummy link for this network id
goes through the dummy deletion, any other name through the VLAN deletion
(which refuses names that do not match VLAN naming); failures are logged
and ignored. -/
def delParentLink (host : Host) (n : Network) (nid : String) (ok : Bool) : Host :=
  if n.config.CreatedSlaveLink then
    if hostHas host n.config.Parent then
      if n.config.Parent = getDummyName (truncateID nid) then
        delDummyLinkStep host n.config.Parent ok
      else
        delVlanLinkStep host n.config.Parent ok
    else host
  else host

/-- The `(d *driver).DeleteNetwork` handler (source lines 153-200):
resolve the network, best-effort parent-link removal, best-effort endpoint
sweep, removal from the in-memory table, and finally the network-record
store delete — whose failure, unlike every other failure on this path, is
returned as an error. -/
def DeleteNetwork (st : DriverState) (nid : String) (o : DelNetOracle) :
    Option GoError × DriverState :=
  match lookupNetwork st.networks nid with
  | none => (some (.plain ("network id " ++ nid ++ " not found")), st)
  | some n =>
    let host1 := delParentLink st.host n nid o.parentDelOk
    let hs := epSweep o n.endpoints host1 st.store
    let networks' := removeNetwork st.networks nid
    if o.netStoreDelOk then
      (none,
       { networks := networks', store := delNetRecord hs.2 n.config.ID,
         host := hs.1 })
    else
      (some (netStoreDelError nid),
       { networks := networks', store := hs.2, host := hs.1 })

/-! ## Endpoint operations -/

/-- Modelled from the spec: the repo helper `validateID`, which rejects an
operation when the network id or the endpoint id is empty. -/
def validateID (nid eid : String) : Option GoError :=
  if nid = "" then some (.badRequest "invalid network id")
  else if eid = "" then some (.badRequest "invalid endpoint id")
  else none

/-- Modelled from the spec: the repo helper `(d *driver).getNetwork` — the
Network Registry `get(id) -> Network or NotFoundError` operation
(§4.3). -/
def getNetwork (l : List Network) (nid : String) : Except GoError Network :=
  if nid = "" then .error (.badRequest ("invalid network id: " ++ nid))
  else
    match lookupNetwork l nid with
    | some n => .ok n
    | none => .error (.plain ("network not found: " ++ nid))

/-- The bytes of a Go string, as used by the conversion
`net.HardwareAddr(req.Interface.MacAddress)`.  A Go string-to-byte-slice
conversion yields a non-nil slice, so the converted `net.HardwareAddr`
value is `some (strBytes s)` — also when `s` is empty.  (Byte values are
the code points; exact for the ASCII strings MAC addresses are made
of.) -/
def strBytes (s : String) : List Nat := s.data.map Char.toNat

def hexChar (n : Nat) : Char :=
  if n < 10 then Char.ofNat (48 + n) else Char.ofNat (87 + n)

def byteToHex (b : Nat) : String :=
  String.mk [hexChar (b / 16 % 16), hexChar (b % 16)]

/-- The `net.HardwareAddr.String` rendering: the bytes of the slice in
lowercase hex, colon-separated; the empty slice renders as "". -/
def hardwareAddrString : List Nat → String
  | [] => ""
  | b :: bs => bs.foldl (fun acc x => acc ++ ":" ++ byteToHex x) (byteToHex b)

/-- A create-endpoint request: ids plus the requested MAC address string
of `req.Interface`. -/
structure CreateEndpointRequest where
  NetworkID : String
  EndpointID : String
  MacAddress : String
deriving DecidableEq, Repr

/-- The `(d *driver).CreateEndpoint` handler (source lines 202-234):
validate the ids, resolve the network, build the endpoint with the
converted MAC bytes (generating a MAC — the `genMac` oracle stands for
`netutils.GenerateMACFromIP(nil)` — only if the converted slice is nil),
write the endpoint record to the store, and only after a successful write
add the endpoint to the network's endpoint table.  The response carries
`ep.mac.String()`. -/
def CreateEndpoint (st : DriverState) (req : CreateEndpointRequest)
    (genMac : List Nat) (storeOk : Bool) :
    Except GoError String × DriverState :=
  match validateID req.NetworkID req.EndpointID with
  | some e => (.error e, st)
  | none =>
    match getNetwork st.networks req.NetworkID with
    | .error _ =>
      (.error (.plain ("network id " ++ req.NetworkID ++ " not found")), st)
    | .ok _ =>
      let mac : Option (List Nat) := some (strBytes req.MacAddress)
      let mac := if mac.isNone then some genMac else mac
      let ep : Endpoint :=
        { id := req.EndpointID, nid := req.NetworkID, mac := mac, srcName := "" }
      if storeOk then
        (.ok (hardwareAddrString (mac.getD [])),
         { st with
             store := putEpRecord st.store ep,
             networks := updateNetwork st.networks req.NetworkID
               (fun n => { n with endpoints := addEndpoint n.endpoints ep }) })
      else
        (.error (.plain ("failed to save macvlan endpoint " ++
           req.EndpointID ++ " to store")), st)

/-- The `(d *driver).DeleteEndpoint` handler (source lines 236-264):
validate the ids, resolve network and endpoint, best-effort interface
deletion, best-effort store-record deletion (both failures only warned
about), and removal from the endpoint table; always returns nil once the
endpoint was found. -/
def DeleteEndpoint (st : DriverState) (nid eid : String)
    (linkDelOk storeDelOk : Bool) : Option GoError × DriverState :=
  match validateID nid eid with
  | some e => (some e, st)
  | none =>
    match lookupNetwork st.networks nid with
    | none => (some (.plain ("network id " ++ nid ++ " not found")), st)
    | some n =>
      match lookupEndpoint n.endpoints eid with
      | none => (some (.plain ("endpoint id " ++ eid ++ " not found")), st)
      | some ep =>
        let host' :=
          if hostHas st.host ep.srcName then
            if linkDelOk then hostRemove st.host ep.srcName else st.host
          else st.host
        let store' := if storeDelOk then delEpRecord st.store ep.id else st.store
        let networks' := updateNetwork st.networks nid
          (fun m => { m with endpoints := removeEndpoint m.endpoints eid })
        (none, { networks := networks', store := store', host := host' })

/-- Modelled from the spec: the repo helper `createMacVlan` — the
downstream `createMacvlanSlave(ifaceName, parentName, mode)` collaborator
(§6): creates a macvlan slave named `ifaceName` bound to the parent link,
failing when the mode is unsupported or the parent link is absent, and
returns the resulting interface name. -/
def createMacVlan (host : Host) (ifaceName parent mode : String) :
    Except GoError (String × Host) :=
  if mode = modePrivate ∨ mode = modeVepa ∨ mode = modeBridge ∨ mode = modePassthru then
    if hostHas host parent then .ok (ifaceName, ifaceName :: host)
    else .error (.plain ("the requested parent interface " ++ parent ++
      " was not found"))
  else .error (.plain ("unsupported macvlan mode " ++ mode))

/-- Oracle for a `Join` call: the fresh interface name produced by the
external `netutils.GenerateIfaceName`, and the outcome of the endpoint
store write. -/
structure JoinOracle where
  genIfName : String
  storeOk : Bool

/-- The `(d *driver).Join` handler (source lines 271-316): resolve network
and endpoint, generate a host-side interface name, create the macvlan
slave on the network's parent with the network's mode, bind the resulting
name to the endpoint (`endpoint.srcName = vethName`), persist the updated
endpoint, and answer with the interface binding (source name plus the
container-side "eth" destination pfx) and gateway service disabled.  A
failed store write returns an error, but the interface and the binding
mutation persist. -/
def Join (st : DriverState) (nid eid : String) (o : JoinOracle) :
    Except GoError (String × String) × DriverState :=
  match getNetwork st.networks nid with
  | .error e => (.error e, st)
  | .ok n =>
    match lookupEndpoint n.endpoints eid with
    | none => (.error (.plain ("could not find endpoint with id " ++ eid)), st)
    | some ep =>
      match createMacVlan st.host o.genIfName n.config.Parent n.config.MacvlanMode with
      | .error e => (.error e, st)
      | .ok (vethName, host') =>
        let ep' := { ep with srcName := vethName }
        let networks' := updateNetwork st.networks nid
          (fun m => { m with endpoints := addEndpoint m.endpoints ep' })
        if o.storeOk then
          (.ok (vethName, containerVethPfx),
           { networks := networks', store := putEpRecord st.store ep',
             host := host' })
        else
          (.error (.plain ("failed to save macvlan endpoint " ++ eid ++
             " to store")),
           { networks := networks', store := st.store, host := host' })

/-! ## The parent-uniqueness invariant -/

/-- The spec invariant on the in-memory network table: no two registered
networks share a parent unless they are the same network (same id). -/
def parentInvB (l : List Network) : Bool :=
  l.all fun a => l.all fun b =>
    decide (a.config.Parent = b.config.Parent → a.id = b.id)

/-- Is the endpoint present in the in-memory endpoint table of the given
network? -/
def epExists (st : DriverState) (nid eid : String) : Bool :=
  match lookupNetwork st.networks nid with
  | some n => (lookupEndpoint n.endpoints eid).isSome
  | none => false

/-- The source-interface binding of an endpoint, as recorded in the
in-memory tables. -/
def epSrcName (st : DriverState) (nid eid : String) : Option String :=
  match lookupNetwork st.networks nid with
  | some n => (lookupEndpoint n.endpoints eid).map (fun e => e.srcName)
  | none => none

/-! ## Concrete instances used by the claim witnesses and evaluations -/

def c2Net : Network :=
  { id := "netA", endpoints := [],
    config := { ID := "netA", Parent := "eth0", MacvlanMode := "bridge",
                Internal := false, CreatedSlaveLink := false } }

def c2St : DriverState := { networks := [c2Net], store := ⟨[], []⟩, host := ["eth0"] }

def c2Cfg : Configuration :=
  { ID := "netB", Parent := "eth0", MacvlanMode := "bridge",
    Internal := false, CreatedSlaveLink := false }

def c6St : DriverState := { networks := [], store := ⟨[], []⟩, host := [] }

def c6Req : CreateNetworkRequest :=
  { NetworkID := "poolnet", IPv4Pools := ["0.0.0.0/0", "10.0.0.0/8"],
    Options := noOptions }

def c6ReqB : CreateNetworkRequest :=
  { NetworkID := "poolnet", IPv4Pools := ["10.0.0.0/8"], Options := noOptions }

def c1St : DriverState := { networks := [], store := ⟨[], []⟩, host := ["eth0"] }

def c1Req : CreateNetworkRequest :=
  { NetworkID := "abc123def456xyz", IPv4Pools := ["0.0.0.0/0"],
    Options := { genericData := some (.strMap [("parent", "eth0")]),
                 internal := none } }

def c1After : DriverState := (CreateNetwork c1St c1Req true).2

def c3St : DriverState := { networks := [], store := ⟨[], []⟩, host := [] }

def c3Req : CreateNetworkRequest :=
  { NetworkID := "net2net2net2net2", IPv4Pools := [], Options := noOptions }

def c3Cfg : Configuration :=
  { ID := "net2net2net2net2", Parent := "dm-net2net2net2",
    MacvlanMode := "bridge", Internal := false, CreatedSlaveLink := false }

def c3CfgA : Configuration := { c3Cfg with CreatedSlaveLink := true }

def c3StA : DriverState :=
  { networks := [{ id := "net2net2net2net2", endpoints := [], config := c3CfgA }],
    store := ⟨[], []⟩, host := ["dm-net2net2net2"] }

def c5St : DriverState :=
  { networks := [c2Net], store := ⟨[], []⟩, host := ["eth0"] }

def c4Net : Network :=
  { id := "net4", endpoints := [],
    config := { ID := "net4", Parent := "eth0", MacvlanMode := "bridge",
                Internal := false, CreatedSlaveLink := false } }

def c4St : DriverState := { networks := [c4Net], store := ⟨[], []⟩, host := ["eth0"] }

def c4Oracle : DelNetOracle :=
  { parentDelOk := true, epLinkDelOk := fun _ => true,
    epStoreDelOk := fun _ => true, netStoreDelOk := true }

def c9Oracle : DelNetOracle :=
  { parentDelOk := true, epLinkDelOk := fun _ => true,
    epStoreDelOk := fun _ => true, netStoreDelOk := false }

def c9Ep : Endpoint :=
  { id := "ep9", nid := "net9", mac := some [], srcName := "veth9creq" }

def c9Net : Network :=
  { id := "net9", endpoints := [c9Ep],
    config := { ID := "net9", Parent := "eth0", MacvlanMode := "bridge",
                Internal := false, CreatedSlaveLink := false } }

def c9St : DriverState :=
  { networks := [c9Net],
    store := ⟨[c9Net.config], c9Net.endpoints⟩, host := ["eth0", "veth9creq"] }

def c7Net : Network :=
  { id := "net7", endpoints := [],
    config := { ID := "net7", Parent := "eth0", MacvlanMode := "bridge",
                Internal := false, CreatedSlaveLink := false } }

def c7St : DriverState := { networks := [c7Net], store := ⟨[], []⟩, host := ["eth0"] }

def c7GenMac : List Nat := [2, 66, 172, 17, 0, 2]

def c7ReqEmpty : CreateEndpointRequest :=
  { NetworkID := "net7", EndpointID := "ep0", MacAddress := "" }

def c7ReqMac : CreateEndpointRequest :=
  { NetworkID := "net7", EndpointID := "ep2",
    MacAddress := "02:42:ac:11:00:02" }

def c8St0 : DriverState := { networks := [], store := ⟨[], []⟩, host := ["eth0"] }

def c8Req : CreateNetworkRequest :=
  { NetworkID := "net1", IPv4Pools := ["0.0.0.0/0"],
    Options := { genericData := some (.strMap [("parent", "eth0")]),
                 internal := none } }

def c8St2 : DriverState :=
  (CreateEndpoint ((CreateNetwork c8St0 c8Req true).2)
    { NetworkID := "net1", EndpointID := "ep1", MacAddress := "" }
    c7GenMac true).2

def c8Join1 : Except GoError (String × String) × DriverState :=
  Join c8St2 "net1" "ep1" { genIfName := "vethaaa1111", storeOk := true }

def c10Req : CreateNetworkRequest :=
  { NetworkID := "netp", IPv4Pools := [],
    Options := { genericData := some (.ifaceMap [("parent", .int 5)]),
                 internal := none } }

def c8Join2 : Except GoError (String × String) × DriverState :=
  Join c8Join1.2 "net1" "ep1" { genIfName := "vethbbb2222", storeOk := true }

/-! ## Basic lemmas about the table and host primitives -/

theorem hostHas_cons_self (h : Host) (a : String) : hostHas (a :: h) a = true := by
  simp [hostHas]

theorem hostHas_remove_ne {h : Host} {a b : String} (hne : b ≠ a) :
    hostHas (hostRemove h a) b = hostHas h b := by
  induction h with
  | nil => rfl
  | cons x rest ih =>
    rw [hostRemove]
    split
    · next hx =>
      rw [hostHas]
      rw [if_neg (by rw [hx]; exact fun hq => hne hq.symm)]
    · next hx =>
      rw [hostHas, hostHas]
      split
      · rfl
      · exact ih

theorem mem_removeNetwork {l : List Network} {nid : String} {m : Network}
    (h : m ∈ removeNetwork l nid) : m ∈ l := by
  induction l with
  | nil => cases h
  | cons n rest ih =>
    rw [removeNetwork] at h
    split at h
    · exact .tail _ (ih h)
    · cases h with
      | head => exact .head _
      | tail _ h' => exact .tail _ (ih h')

theorem lookupNetwork_remove_self (l : List Network) (nid : String) :
    lookupNetwork (removeNetwork l nid) nid = none := by
  induction l with
  | nil => rfl
  | cons n rest ih =>
    rw [removeNetwork]
    split
    · exact ih
    · next hne => rw [lookupNetwork, if_neg hne]; exact ih

theorem lookupEndpoint_remove_self (l : List Endpoint) (eid : String) :
    lookupEndpoint (removeEndpoint l eid) eid = none := by
  induction l with
  | nil => rfl
  | cons e rest ih =>
    rw [removeEndpoint]
    split
    · exact ih
    · next hne => rw [lookupEndpoint, if_neg hne]; exact ih

theorem lookupNetwork_update (l : List Network) (nid : String)
    (f : Network → Network) (hf : ∀ n, (f n).id = n.id) :
    lookupNetwork (updateNetwork l nid f) nid = (lookupNetwork l nid).map f := by
  induction l with
  | nil => rfl
  | cons n rest ih =>
    rw [updateNetwork, lookupNetwork]
    split
    · next hid => rw [lookupNetwork, if_pos ((hf n).trans hid)]; rfl
    · next hid => rw [lookupNetwork, if_neg hid]; exact ih

/-! ## Lemmas about the create path -/

theorem createVlanLink_ok {host host' : Host} {name : String}
    (h : createVlanLink host name = .ok host') : host' = name :: host := by
  unfold createVlanLink at h
  split at h
  · split at h
    · exact (Except.ok.injEq _ _ ▸ congrArg id h).symm ▸ by
        cases h; rfl
    · cases h
  · cases h

theorem findParentMatch_ok_false {l : List Network} {cfg : Configuration}
    (h : findParentMatch l cfg = .ok false) :
    ∀ m ∈ l, m.config.Parent ≠ cfg.Parent := by
  induction l with
  | nil => intro m hm; cases hm
  | cons nw rest ih =>
    intro m hm
    rw [findParentMatch] at h
    split at h
    · next hp =>
      split at h
      · cases h
      · cases h
    · next hp =>
      cases hm with
      | head => exact fun hq => hp hq.symm
      | tail _ hm' => exact ih h m hm'

theorem findParentMatch_conflict {l : List Network} {cfg : Configuration}
    {A : Network} (hA : A ∈ l) (hp : A.config.Parent = cfg.Parent)
    (hid : ∀ m ∈ l, m.config.Parent = cfg.Parent → m.config.ID ≠ cfg.ID) :
    ∃ m ∈ l, m.config.Parent = cfg.Parent ∧
      findParentMatch l cfg = .error (parentConflictError m cfg.Parent) := by
  induction l with
  | nil => cases hA
  | cons nw rest ih =>
    by_cases hnw : cfg.Parent = nw.config.Parent
    · refine ⟨nw, .head _, hnw.symm, ?_⟩
      rw [findParentMatch, if_pos hnw,
        if_pos (fun hq => hid nw (.head _) hnw.symm hq.symm)]
    · have hA' : A ∈ rest := by
        cases hA with
        | head => exact absurd hp.symm hnw
        | tail _ hA' => exact hA'
      obtain ⟨m, hm, hmp, hfind⟩ :=
        ih hA' (fun m hm hmp => hid m (.tail _ hm) hmp)
      exact ⟨m, .tail _ hm, hmp, by rw [findParentMatch, if_neg hnw]; exact hfind⟩

theorem provisionLink_ok {host host' : Host} {cfg cfg' : Configuration}
    (h : provisionLink host cfg = .ok (cfg', host')) :
    cfg'.ID = cfg.ID ∧ cfg'.Parent = cfg.Parent ∧
      hostHas host' cfg.Parent = true := by
  unfold provisionLink at h
  split at h
  · next hex => cases h; exact ⟨rfl, rfl, hex⟩
  · next hex =>
    split at h
    · cases h
      exact ⟨rfl, rfl, hostHas_cons_self _ _⟩
    · cases hv : createVlanLink host cfg.Parent with
      | error e => rw [hv] at h; cases h
      | ok hostv =>
        rw [hv] at h
        cases h
        exact ⟨rfl, rfl, createVlanLink_ok hv ▸ hostHas_cons_self _ _⟩

theorem validateCreate_ok_ID {req : CreateNetworkRequest} {cfg : Configuration}
    (h : validateCreate req = .ok cfg) : cfg.ID = req.NetworkID := by
  unfold validateCreate at h
  split at h
  · cases h
  · split at h
    · cases h
    · cases h
    · split at h
      · cases h
      · split at h
        · cases h
        · split at h
          · cases h; rfl
          · cases h; rfl

theorem parentInvB_iff {l : List Network} : parentInvB l = true ↔
    ∀ a ∈ l, ∀ b ∈ l, a.config.Parent = b.config.Parent → a.id = b.id := by
  simp [parentInvB, List.all_eq_true, imp_iff_not_or]

theorem parentInvB_remove {l : List Network} {nid : String}
    (h : parentInvB l = true) : parentInvB (removeNetwork l nid) = true := by
  rw [parentInvB_iff] at h ⊢
  intro a ha b hb
  exact h a (mem_removeNetwork ha) b (mem_removeNetwork hb)

theorem parentInvB_add {l : List Network} {n : Network}
    (h : parentInvB l = true)
    (hfresh : ∀ m ∈ l, m.config.Parent ≠ n.config.Parent) :
    parentInvB (addNetwork l n) = true := by
  rw [parentInvB_iff] at h ⊢
  intro a ha b hb hp
  rw [addNetwork] at ha hb
  cases ha with
  | head =>
    cases hb with
    | head => rfl
    | tail _ hb' =>
      exact absurd hp.symm (hfresh b (mem_removeNetwork hb'))
  | tail _ ha' =>
    cases hb with
    | head => exact absurd hp (hfresh a (mem_removeNetwork ha'))
    | tail _ hb' =>
      exact h a (mem_removeNetwork ha') b (mem_removeNetwork hb') hp

/-! ## Lemmas about the delete path -/

theorem epSweepStepHost_other {o : DelNetOracle} {ep : Endpoint} {host : Host}
    {name : String} (hne : ep.srcName ≠ name) :
    hostHas (epSweepStepHost o ep host) name = hostHas host name := by
  unfold epSweepStepHost
  split
  · split
    · exact hostHas_remove_ne (fun hq => hne hq.symm)
    · rfl
  · rfl

theorem epSweep_host_other (o : DelNetOracle) (eps : List Endpoint)
    (host : Host) (store : Store) (name : String)
    (h : ∀ ep ∈ eps, ep.srcName ≠ name) :
    hostHas (epSweep o eps host store).1 name = hostHas host name := by
  induction eps generalizing host store with
  | nil => rfl
  | cons ep rest ih =>
    rw [epSweep]
    exact (ih _ _ (fun e he => h e (.tail _ he))).trans
      (epSweepStepHost_other (h ep (.head _)))

theorem delParentLink_not_created {host : Host} {n : Network} {nid : String}
    {ok : Bool} (hcsl : n.config.CreatedSlaveLink = false) :
    delParentLink host n nid ok = host := by
  unfold delParentLink
  rw [if_neg (by rw [hcsl]; exact Bool.false_ne_true)]

theorem delParentLink_removed {host : Host} {n : Network} {nid : String}
    {ok : Bool} (hbefore : hostHas host n.config.Parent = true)
    (hafter : hostHas (delParentLink host n nid ok) n.config.Parent = false) :
    n.config.CreatedSlaveLink = true ∧
      (n.config.Parent = getDummyName (truncateID nid) ∨
        isVlanName n.config.Parent = true) := by
  by_cases hcsl : n.config.CreatedSlaveLink = true
  · refine ⟨hcsl, ?_⟩
    by_cases hdummy : n.config.Parent = getDummyName (truncateID nid)
    · exact .inl hdummy
    · by_cases hvl : isVlanName n.config.Parent = true
      · exact .inr hvl
      · exfalso
        have hvl' : isVlanName n.config.Parent = false := by
          cases hq : isVlanName n.config.Parent
          · rfl
          · exact absurd hq hvl
        have hkeep : delParentLink host n nid ok = host := by
          unfold delParentLink
          rw [if_pos hcsl]
          by_cases hex : hostHas host n.config.Parent = true
          · rw [if_pos hex, if_neg hdummy]
            unfold delVlanLinkStep
            rw [if_neg (by rw [hvl', Bool.false_and]; exact Bool.false_ne_true)]
          · rw [if_neg hex]
        rw [hkeep, hbefore] at hafter
        cases hafter
  · have hcsl' : n.config.CreatedSlaveLink = false := by
      cases hq : n.config.CreatedSlaveLink
      · rfl
      · exact absurd hq hcsl
    rw [delParentLink_not_created hcsl', hbefore] at hafter
    cases hafter

/-- The one-step characterization of a `DeleteNetwork` call on a network
that is present in the table. -/
theorem DeleteNetwork_found (st : DriverState) (nid : String)
    (o : DelNetOracle) (n : Network)
    (hn : lookupNetwork st.networks nid = some n) :
    DeleteNetwork st nid o =
      (if o.netStoreDelOk then none else some (netStoreDelError nid),
       { networks := removeNetwork st.networks nid,
         store :=
           if o.netStoreDelOk then
             delNetRecord (epSweep o n.endpoints
               (delParentLink st.host n nid o.parentDelOk) st.store).2 n.config.ID
           else
             (epSweep o n.endpoints
               (delParentLink st.host n nid o.parentDelOk) st.store).2,
         host := (epSweep o n.endpoints
           (delParentLink st.host n nid o.parentDelOk) st.store).1 }) := by
  unfold DeleteNetwork
  rw [hn]
  by_cases hns : o.netStoreDelOk
  · simp [hns]
  · simp [hns]

/-! ## Claim theorems -/

/-- C10: option parsing is not total over its declared input type — for a
generic-data value of dynamic type `map[string]interface\x7b\x7d` that
maps the "parent" key (or the "macvlan_mode" key) to a non-string value,
`parseNetworkGenericOptions` performs an unchecked type assertion and
panics instead of returning a configuration error; the panic escapes the
whole `CreateNetwork` call. -/
theorem parse_generic_options_panics_on_nonstring :
    parseNetworkGenericOptions (.ifaceMap [("parent", .int 5)]) =
      .panic typeAssertionPanic ∧
    parseNetworkGenericOptions (.ifaceMap [("macvlan_mode", .bool true)]) =
      .panic typeAssertionPanic ∧
    (CreateNetwork c6St c10Req true).1 = .panic typeAssertionPanic := by
  exact ⟨by decide, by decide, by decide⟩

/-- C2: when the registry contains a network A with the requested parent
and the request carries a different id (for any network claiming that
parent), `createNetwork` fails with the parent-conflict error and performs
no link creation or mutation at all — the state is returned unchanged. -/
theorem create_network_parent_conflict (st : DriverState) (cfg : Configuration)
    (A : Network) (hA : A ∈ st.networks) (hp : A.config.Parent = cfg.Parent)
    (hid : ∀ m ∈ st.networks, m.config.Parent = cfg.Parent →
      m.config.ID ≠ cfg.ID) :
    ∃ m ∈ st.networks, m.config.Parent = cfg.Parent ∧
      createNetwork st cfg = (.error (parentConflictError m cfg.Parent), st) := by
  obtain ⟨m, hm, hmp, hfind⟩ := findParentMatch_conflict hA hp hid
  refine ⟨m, hm, hmp, ?_⟩
  unfold createNetwork
  rw [hfind]

/-- Witness for C2 at a concrete one-network state. -/
theorem create_network_parent_conflict_witness :
    ∃ m ∈ c2St.networks, m.config.Parent = c2Cfg.Parent ∧
      createNetwork c2St c2Cfg =
        (.error (parentConflictError m c2Cfg.Parent), c2St) :=
  create_network_parent_conflict c2St c2Cfg c2Net (by decide) (by decide)
    (by decide)

/-- C6 counterexample: a request whose pool-descriptor list CONTAINS a
non-wildcard pool (in second position) is not rejected — `CreateNetwork`
only inspects the first descriptor, so the call succeeds and has link and
store side effects. -/
theorem create_network_pool_check_counterexample :
    ("10.0.0.0/8" ∈ c6Req.IPv4Pools ∧ "10.0.0.0/8" ≠ "0.0.0.0/0") ∧
    (CreateNetwork c6St c6Req true).1 = .ok ∧
    (CreateNetwork c6St c6Req true).2 ≠ c6St := by decide

/-- C6 (amended): for every request whose IPv4 pool-descriptor list is
non-empty with a FIRST descriptor other than the wildcard pool
"0.0.0.0/0", `CreateNetwork` fails with the pool configuration error and
no link or store side effect occurs (the state is unchanged). -/
theorem create_network_rejects_nonwildcard_first_pool (st : DriverState)
    (req : CreateNetworkRequest) (storeOk : Bool) (p : String)
    (ps : List String) (hp : req.IPv4Pools = p :: ps)
    (hw : p ≠ "0.0.0.0/0") :
    CreateNetwork st req storeOk = (.err (.plain "ipv4 pool is not empty"), st) := by
  unfold CreateNetwork validateCreate
  rw [hp]
  simp [poolRejected, hw]

/-- Witness for the amended C6 at a concrete request. -/
theorem create_network_rejects_nonwildcard_first_pool_witness :
    CreateNetwork c6St c6ReqB true =
      (.err (.plain "ipv4 pool is not empty"), c6St) :=
  create_network_rejects_nonwildcard_first_pool c6St c6ReqB true "10.0.0.0/8"
    [] (by decide) (by decide)

/-- Characterization of a successful `createNetwork` call: the returned
configuration keeps id and parent, the parent link exists afterwards, the
store is untouched, and the network table is extended exactly when this
was not an idempotent replay. -/
theorem createNetwork_ok {st stA : DriverState} {cfg cfgA : Configuration}
    {found : Bool}
    (hc : createNetwork st cfg = (.ok (found, cfgA), stA)) :
    cfgA.ID = cfg.ID ∧ cfgA.Parent = cfg.Parent ∧
      hostHas stA.host cfg.Parent = true ∧ stA.store = st.store ∧
      (found = false →
        stA.networks = addNetwork st.networks
          { id := cfgA.ID, endpoints := [], config := cfgA } ∧
        ∀ m ∈ st.networks, m.config.Parent ≠ cfg.Parent) ∧
      (found = true → stA.networks = st.networks) := by
  unfold createNetwork at hc
  split at hc
  · simp at hc
  · next foundExisting heq =>
    split at hc
    · simp at hc
    · next cfgP hostP heq2 =>
      obtain ⟨hID, hPar, hHas⟩ := provisionLink_ok heq2
      split at hc
      · next hfe =>
        simp only [Prod.mk.injEq, Except.ok.injEq] at hc
        obtain ⟨⟨hf, hcfg⟩, hst⟩ := hc
        subst hf hcfg hst
        refine ⟨hID, hPar, hHas, rfl, ?_, ?_⟩
        · intro hcontra; cases hcontra
        · intro _; rfl
      · next hfe =>
        simp only [Prod.mk.injEq, Except.ok.injEq] at hc
        obtain ⟨⟨hf, hcfg⟩, hst⟩ := hc
        subst hf hcfg hst
        have hfe' : foundExisting = false := by
          cases foundExisting
          · rfl
          · exact absurd rfl hfe
        subst hfe'
        refine ⟨hID, hPar, hHas, rfl, ?_, ?_⟩
        · intro _
          exact ⟨rfl, findParentMatch_ok_false heq⟩
        · intro hcontra; cases hcontra

/-- A repeated `createNetwork` with the same configuration, run on any
state with the tables produced by a successful non-replay run, is detected
as an idempotent replay: it reports `foundExisting`, skips link creation
and leaves the state unchanged. -/
theorem createNetwork_replay {st stA st' : DriverState}
    {cfg cfgA : Configuration}
    (hc : createNetwork st cfg = (.ok (false, cfgA), stA))
    (hnet : st'.networks = stA.networks) (hhost : st'.host = stA.host) :
    createNetwork st' cfg = (.ok (true, cfg), st') := by
  obtain ⟨hID, hPar, hHas, _, hfalse, _⟩ := createNetwork_ok hc
  obtain ⟨hnets, _⟩ := hfalse rfl
  have h1 : findParentMatch st'.networks cfg = .ok true := by
    rw [hnet, hnets]
    unfold addNetwork
    rw [findParentMatch, if_pos hPar.symm, if_neg (fun hq => hq hID.symm)]
  have h2 : provisionLink st'.host cfg = .ok (cfg, st'.host) := by
    unfold provisionLink
    rw [if_pos (by rw [hhost]; exact hHas)]
  unfold createNetwork
  simp [h1, h2]

/-- C1: a second create-network call with an identical request, after a
first fully successful one, skips link creation, inserts no second
network, persists no second record (the state is returned exactly
unchanged, whatever the store oracle would do) and returns the
distinguished maskable "restoring existing network" signal. -/
theorem create_network_idempotent_replay (st0 st1 : DriverState)
    (req : CreateNetworkRequest)
    (h : CreateNetwork st0 req true = (.ok, st1)) (b : Bool) :
    CreateNetwork st1 req b =
      (.err (restoringExistingError req.NetworkID), st1) := by
  unfold CreateNetwork at h ⊢
  split at h
  · cases h
  · cases h
  · next cfg hv =>
    split at h
    · cases h
    · next found cfgA stA hcn =>
      split at h
      · cases h
      · next hfound =>
        split at h
        · simp only [Prod.mk.injEq] at h
          obtain ⟨_, hst⟩ := h
          have hfound' : found = false := by
            cases found
            · rfl
            · exact absurd rfl hfound
          subst hfound'
          have hrep : createNetwork st1 cfg = (.ok (true, cfg), st1) := by
            refine createNetwork_replay hcn ?_ ?_ <;> rw [← hst]
          simp [hrep]
          rw [validateCreate_ok_ID hv]
        · cases h

/-- Witness for C1 at a concrete request on an empty driver. -/
theorem create_network_idempotent_replay_witness :
    CreateNetwork c1St c1Req true = (.ok, c1After) ∧
    CreateNetwork c1After c1Req true =
      (.err (restoringExistingError c1Req.NetworkID), c1After) :=
  ⟨by decide, create_network_idempotent_replay c1St c1After c1Req (by decide) true⟩

/-- A `createNetwork` call that returns an error leaves the state
untouched. -/
theorem createNetwork_error_state {st st' : DriverState} {cfg : Configuration}
    {e : GoError} (h : createNetwork st cfg = (.error e, st')) : st' = st := by
  unfold createNetwork at h
  split at h
  · cases h; rfl
  · split at h
    · cases h; rfl
    · split at h
      · cases h
      · cases h

/-- C3 counterexample: on an empty driver, a create whose store write
fails does NOT fully undo the creation — the in-memory entry is removed,
but the driver-created dummy parent link is still present on the host
after the call. -/
theorem create_rollback_leaves_link_counterexample :
    (CreateNetwork c3St c3Req false).1 = .err storeUpdateFailedError ∧
    (CreateNetwork c3St c3Req false).2.networks = [] ∧
    (CreateNetwork c3St c3Req false).2.host =
      [getDummyName (truncateID c3Req.NetworkID)] := by decide

/-- C3 (amended): when link provisioning and in-memory registration
succeed but persisting the network record fails, the driver removes the
network from the in-memory map and returns the store error; it performs NO
removal of the parent link — the host table of the failed call is exactly
the one produced by link provisioning (in particular a driver-created
parent link remains), and no store record was written. -/
theorem create_rollback_removes_map_entry_only (st stA : DriverState)
    (req : CreateNetworkRequest) (cfg cfgA : Configuration)
    (hv : validateCreate req = .ok cfg)
    (hc : createNetwork st cfg = (.ok (false, cfgA), stA)) :
    CreateNetwork st req false =
      (.err storeUpdateFailedError,
        { stA with networks := removeNetwork stA.networks cfg.ID }) ∧
    lookupNetwork (removeNetwork stA.networks cfg.ID) cfg.ID = none ∧
    stA.store = st.store ∧
    hostHas stA.host cfg.Parent = true := by
  obtain ⟨hID, hPar, hHas, hstore, _, _⟩ := createNetwork_ok hc
  refine ⟨?_, lookupNetwork_remove_self _ _, hstore, hHas⟩
  unfold CreateNetwork
  simp [hv, hc]

/-- Witness for the amended C3 at a concrete failed create. -/
theorem create_rollback_removes_map_entry_only_witness :
    CreateNetwork c3St c3Req false =
      (.err storeUpdateFailedError,
        { c3StA with networks := removeNetwork c3StA.networks c3Cfg.ID }) ∧
    lookupNetwork (removeNetwork c3StA.networks c3Cfg.ID) c3Cfg.ID = none ∧
    c3StA.store = c3St.store ∧
    hostHas c3StA.host c3Cfg.Parent = true :=
  create_rollback_removes_map_entry_only c3St c3StA c3Req c3Cfg c3CfgA
    (by decide) (by decide)

/-- C5: the parent-uniqueness invariant — no two networks of the
in-memory table share a parent unless they share an id — holds of the
initial (empty) table and is preserved by every `CreateNetwork` and every
`DeleteNetwork` call, whatever the request and the oracle outcomes. -/
theorem parent_uniqueness_invariant :
    parentInvB ([] : List Network) = true ∧
    (∀ (st : DriverState) (req : CreateNetworkRequest) (storeOk : Bool),
      parentInvB st.networks = true →
      parentInvB ((CreateNetwork st req storeOk).2).networks = true) ∧
    (∀ (st : DriverState) (nid : String) (o : DelNetOracle),
      parentInvB st.networks = true →
      parentInvB ((DeleteNetwork st nid o).2).networks = true) := by
  refine ⟨rfl, ?_, ?_⟩
  · intro st req storeOk h
    unfold CreateNetwork
    split
    · exact h
    · exact h
    · next cfg hv =>
      split
      · next e st' heq => rw [createNetwork_error_state heq]; exact h
      · next found cfgA stA heq =>
        obtain ⟨hID, hPar, _, _, hfalse, htrue⟩ := createNetwork_ok heq
        split
        · next hf =>
          show parentInvB stA.networks = true
          rw [htrue hf]; exact h
        · next hf =>
          have hf' : found = false := by
            cases found
            · rfl
            · exact absurd rfl hf
          obtain ⟨hnets, hfresh⟩ := hfalse hf'
          have hadd : parentInvB stA.networks = true := by
            rw [hnets]
            exact parentInvB_add h
              (fun m hm hq => hfresh m hm (hq.trans hPar))
          split
          · exact hadd
          · exact parentInvB_remove hadd
  · intro st nid o h
    unfold DeleteNetwork
    split
    · exact h
    · split
      · exact parentInvB_remove h
      · exact parentInvB_remove h

/-- Witness for C5: the create-preservation conjunct applied at a concrete
one-network state and request. -/
theorem parent_uniqueness_invariant_witness :
    parentInvB ((CreateNetwork c5St c3Req true).2).networks = true :=
  parent_uniqueness_invariant.2.1 c5St c3Req true (by decide)

/-- C4: parent-link ownership on network deletion.  When the network is
registered and no endpoint interface shares the parent's name: (a) with
`createdSlaveLink = false` the parent link's presence on the host is
unchanged by the delete; (b) if the delete did remove the parent link
(present before, absent after), then `createdSlaveLink` was true and the
parent's name was the dummy name for this network id or matched the VLAN
sub-interface pattern; (c) the teardown is never aborted by a failed link
deletion: the network always leaves the in-memory table and the result
depends only on the network-record store delete. -/
theorem delete_network_link_ownership (st : DriverState) (nid : String)
    (o : DelNetOracle) (n : Network)
    (hn : lookupNetwork st.networks nid = some n)
    (hsrc : ∀ ep ∈ n.endpoints, ep.srcName ≠ n.config.Parent) :
    (n.config.CreatedSlaveLink = false →
      hostHas ((DeleteNetwork st nid o).2).host n.config.Parent =
        hostHas st.host n.config.Parent) ∧
    ((hostHas st.host n.config.Parent = true ∧
      hostHas ((DeleteNetwork st nid o).2).host n.config.Parent = false) →
      n.config.CreatedSlaveLink = true ∧
        (n.config.Parent = getDummyName (truncateID nid) ∨
          isVlanName n.config.Parent = true)) ∧
    lookupNetwork ((DeleteNetwork st nid o).2).networks nid = none ∧
    (DeleteNetwork st nid o).1 =
      (if o.netStoreDelOk then none else some (netStoreDelError nid)) := by
  rw [DeleteNetwork_found st nid o n hn]
  have hsweep : hostHas (epSweep o n.endpoints
      (delParentLink st.host n nid o.parentDelOk) st.store).1 n.config.Parent =
      hostHas (delParentLink st.host n nid o.parentDelOk) n.config.Parent :=
    epSweep_host_other o n.endpoints _ st.store n.config.Parent hsrc
  refine ⟨?_, ?_, lookupNetwork_remove_self _ _, rfl⟩
  · intro hcsl
    rw [hsweep, delParentLink_not_created hcsl]
  · intro ⟨hbefore, hafter⟩
    exact delParentLink_removed hbefore (hsweep ▸ hafter)

/-- Witness for C4 at a concrete pre-existing-parent network: the delete
leaves the parent link untouched. -/
theorem delete_network_link_ownership_witness :
    (c4Net.config.CreatedSlaveLink = false →
      hostHas ((DeleteNetwork c4St "net4" c4Oracle).2).host c4Net.config.Parent =
        hostHas c4St.host c4Net.config.Parent) ∧
    ((hostHas c4St.host c4Net.config.Parent = true ∧
      hostHas ((DeleteNetwork c4St "net4" c4Oracle).2).host c4Net.config.Parent = false) →
      c4Net.config.CreatedSlaveLink = true ∧
        (c4Net.config.Parent = getDummyName (truncateID "net4") ∨
          isVlanName c4Net.config.Parent = true)) ∧
    lookupNetwork ((DeleteNetwork c4St "net4" c4Oracle).2).networks "net4" = none ∧
    (DeleteNetwork c4St "net4" c4Oracle).1 =
      (if c4Oracle.netStoreDelOk then none else some (netStoreDelError "net4")) :=
  delete_network_link_ownership c4St "net4" c4Oracle c4Net (by decide)
    (by decide)

/-- C9 counterexample: on the delete-network path a failed store delete of
the network record is NOT warning-only — `DeleteNetwork` returns an error
(after having already removed the network from the in-memory table). -/
theorem delete_network_store_failure_counterexample :
    (DeleteNetwork c4St "net4" c9Oracle).1 = some (netStoreDelError "net4") ∧
    lookupNetwork ((DeleteNetwork c4St "net4" c9Oracle).2).networks "net4" =
      none := by decide

/-- C9 (amended): endpoint store-delete failures are warning-only on both
delete paths — `DeleteEndpoint` completes and returns success with a
failed endpoint store delete, and `DeleteNetwork` returns success whenever
the final network-record store delete succeeds, regardless of the
per-endpoint oracle outcomes — but a failed network-record store delete
makes `DeleteNetwork` return an error (its other steps having already
completed: the network is gone from the in-memory table). -/
theorem delete_paths_store_failure_policy :
    (∀ (st : DriverState) (nid eid : String) (linkOk : Bool) (n : Network)
        (ep : Endpoint),
      nid ≠ "" → eid ≠ "" →
      lookupNetwork st.networks nid = some n →
      lookupEndpoint n.endpoints eid = some ep →
      (DeleteEndpoint st nid eid linkOk false).1 = none ∧
        epExists ((DeleteEndpoint st nid eid linkOk false).2) nid eid = false ∧
        ((DeleteEndpoint st nid eid linkOk false).2).store = st.store) ∧
    (∀ (st : DriverState) (nid : String) (o : DelNetOracle) (n : Network),
      lookupNetwork st.networks nid = some n → o.netStoreDelOk = true →
      (DeleteNetwork st nid o).1 = none) ∧
    (∀ (st : DriverState) (nid : String) (o : DelNetOracle) (n : Network),
      lookupNetwork st.networks nid = some n → o.netStoreDelOk = false →
      (DeleteNetwork st nid o).1 = some (netStoreDelError nid) ∧
        lookupNetwork ((DeleteNetwork st nid o).2).networks nid = none) := by
  refine ⟨?_, ?_, ?_⟩
  · intro st nid eid linkOk n ep hnid heid hn hep
    have hval : validateID nid eid = none := by
      unfold validateID
      rw [if_neg hnid, if_neg heid]
    have heq : DeleteEndpoint st nid eid linkOk false =
        (none,
         { networks := updateNetwork st.networks nid
             (fun m => { m with endpoints := removeEndpoint m.endpoints eid }),
           store := st.store,
           host :=
             if hostHas st.host ep.srcName then
               if linkOk then hostRemove st.host ep.srcName else st.host
             else st.host }) := by
      unfold DeleteEndpoint
      rw [hval]
      simp only [hn, hep]
      simp
    refine ⟨by rw [heq], ?_, by rw [heq]⟩
    rw [heq]
    unfold epExists
    dsimp only
    rw [lookupNetwork_update st.networks nid
      (fun m => { m with endpoints := removeEndpoint m.endpoints eid })
      (fun m => rfl), hn]
    simp [lookupEndpoint_remove_self]
  · intro st nid o n hn hok
    rw [DeleteNetwork_found st nid o n hn, hok]
    rfl
  · intro st nid o n hn hok
    rw [DeleteNetwork_found st nid o n hn, hok]
    exact ⟨rfl, lookupNetwork_remove_self _ _⟩

/-- Witness for the amended C9: the third conjunct applied at a concrete
state with a failing network-record store delete. -/
theorem delete_paths_store_failure_policy_witness :
    (DeleteNetwork c9St "net9" c9Oracle).1 = some (netStoreDelError "net9") ∧
      lookupNetwork ((DeleteNetwork c9St "net9" c9Oracle).2).networks "net9" =
        none :=
  delete_paths_store_failure_policy.2.2 c9St "net9" c9Oracle c9Net (by decide)
    rfl

/-- C7 evaluated at the failing inputs: the persist-before-add portions of
the claim hold (no in-memory endpoint is added when the store write fails,
and a successful call stores the record), but the MAC portion does not —
with an empty requested MAC the conversion `net.HardwareAddr(string)`
yields a non-nil empty byte slice, so the MAC-generation branch never
fires and the response MAC is "" rather than the generated one; and a
non-empty requested MAC string is byte-punned, not parsed, so the response
renders the hex of its ASCII characters instead of the requested MAC. -/
theorem create_endpoint_mac_never_generated :
    (CreateEndpoint c7St c7ReqEmpty c7GenMac true).1 = .ok "" ∧
    hardwareAddrString c7GenMac = "02:42:ac:11:00:02" ∧
    (CreateEndpoint c7St c7ReqEmpty c7GenMac true).1 ≠
      .ok (hardwareAddrString c7GenMac) ∧
    (CreateEndpoint c7St c7ReqMac c7GenMac true).1 ≠ .ok "02:42:ac:11:00:02" ∧
    epExists (CreateEndpoint c7St c7ReqEmpty c7GenMac false).2 "net7" "ep0" =
      false ∧
    (CreateEndpoint c7St c7ReqEmpty c7GenMac false).2.store = c7St.store ∧
    epExists (CreateEndpoint c7St c7ReqEmpty c7GenMac true).2 "net7" "ep0" =
      true ∧
    (lookupEndpoint ((CreateEndpoint c7St c7ReqEmpty c7GenMac true).2).store.eps
      "ep0").isSome = true := by decide

/-- C8 evaluated on a state reached through the driver operations: a
second `Join` on the same endpoint id neither returns the same interface
binding nor fails — it succeeds with a freshly generated name, overwrites
the endpoint's binding, and leaves BOTH macvlan interfaces on the host, so
a repeated join leaks a second host interface. -/
theorem join_rejoin_leaks_interface :
    c8Join1.1 = .ok ("vethaaa1111", containerVethPfx) ∧
    epSrcName c8Join1.2 "net1" "ep1" = some "vethaaa1111" ∧
    c8Join2.1 = .ok ("vethbbb2222", containerVethPfx) ∧
    epSrcName c8Join2.2 "net1" "ep1" = some "vethbbb2222" ∧
    hostHas c8Join2.2.host "vethaaa1111" = true ∧
    hostHas c8Join2.2.host "vethbbb2222" = true := by decide

end MacvlanNoipam
